import Mathlib

/-!
Shallow embedding of the weather-lookup pipeline in `main.py` and
verification of the specified properties of its pure core: the
current-slot resolution block, the 3-day forecast table projection,
the location-directory XML parse loop, the sticky-default city
selection, the forecast fetch error handling, and the falsy-response
guard in `main`.
-/

namespace WeatherApp

/-- Constant `DEFAULT_PREF` from main.py. -/
def DEFAULT_PREF : String := "東京都"

/-- Constant `DEFAULT_CITY` from main.py. -/
def DEFAULT_CITY : String := "東京"

/-- Python `dict[str, str]` modelled as an association list;
`dictGet d k dflt` embeds `d.get(k, dflt)` (first binding wins;
Python dict keys are unique so this is faithful). -/
def dictGet (d : List (String × String)) (key dflt : String) : String :=
  match d.find? (fun kv => kv.1 == key) with
  | some kv => kv.2
  | none => dflt

/-- Python truthiness of an optional string: `None` and `""` are falsy. -/
def truthy_str : Option String → Bool
  | none => false
  | some s => !(s == "")

/-! ## Current-slot resolution (main.py lines 159-178) -/

/-- The `time_slots` dict of main.py line 165, in insertion order
(Python dict iteration order): key, start hour, end hour. -/
def time_slots : List (String × Int × Int) :=
  [("T00_06", 0, 6), ("T06_12", 6, 12), ("T12_18", 12, 18), ("T18_24", 18, 24)]

/-- The loop condition of main.py line 169:
`(start <= now_hour < end) or (key == 'T18_24' and now_hour >= end)`. -/
def current_hour_in_slot (key : String) (start endh now_hour : Int) : Bool :=
  (decide (start ≤ now_hour) && decide (now_hour < endh))
    || (key == "T18_24" && decide (now_hour ≥ endh))

/-- The `for key, (start, end) in time_slots.items()` loop of main.py
lines 167-173: returns the key of the first slot whose condition holds
(the loop breaks at the first match), `none` if no slot matched. -/
def find_slot : List (String × Int × Int) → Int → Option String
  | [], _ => none
  | (key, start, endh) :: rest, h =>
    if current_hour_in_slot key start endh h then some key else find_slot rest h

/-- The slot the loop matches for a given `now_hour`
(`none` models `found_slot == False`). -/
def matched_slot (h : Int) : Option String := find_slot time_slots h

/-- The whole current-probability computation of main.py lines 160-176:
`weather_now` starts as `'--'`; if `chance_of_rain_today` is truthy
(present and non-empty) the loop looks up the matched slot's key, and
the post-loop fallback (guarded by `not found_slot and now_hour >= 0`)
looks up `'T18_24'`. -/
def weather_now_value (chance_of_rain_today : Option (List (String × String)))
    (now_hour : Int) : String :=
  match chance_of_rain_today with
  | none => "--"
  | some d =>
    if d.isEmpty then "--"
    else
      match matched_slot now_hour with
      | some key => dictGet d key "--"
      | none => if 0 ≤ now_hour then dictGet d "T18_24" "--" else "--"

/-! ## Forecast payload access (main.py lines 161-162, 183-201) -/

/-- One element of the provider's `forecasts` array; main.py only reads
its `chanceOfRain` dict, absent (`None`) when the key is missing. -/
structure DailyForecast where
  chanceOfRain : Option (List (String × String))
deriving DecidableEq

/-- The decoded forecast response as main.py reads it: the `forecasts`
key is either absent (`none`) or a list of daily forecasts. -/
structure WeatherJson where
  forecasts : Option (List DailyForecast)
deriving DecidableEq

/-- Embeds `weather_json.get('forecasts', [{}])[0]` (main.py line 161):
the default `[{}]` is used only when the key is absent; indexing `[0]`
on an empty list raises `IndexError`, modelled by `none`. -/
def forecast_today (w : WeatherJson) : Option DailyForecast :=
  (w.forecasts.getD [⟨none⟩])[0]?

/-- The current-probability block of main.py lines 159-176 end to end:
`none` models an uncaught exception escaping the block. -/
def current_weather_now (w : WeatherJson) (now_hour : Int) : Option String :=
  match forecast_today w with
  | none => none
  | some fc => some (weather_now_value fc.chanceOfRain now_hour)

/-! ## Forecast table (main.py lines 183-201) -/

/-- The loop body of main.py lines 190-201: one table row. A truthy
(present, non-empty) `chanceOfRain` yields the four slot lookups in
fixed order, each defaulted to `'--'`; otherwise `['--'] * 4`. -/
def daily_rain_probabilities (fc : DailyForecast) : List String :=
  match fc.chanceOfRain with
  | some d =>
    if d.isEmpty then List.replicate 4 "--"
    else [dictGet d "T00_06" "--", dictGet d "T06_12" "--",
          dictGet d "T12_18" "--", dictGet d "T18_24" "--"]
  | none => List.replicate 4 "--"

/-- The `data` list built by main.py lines 186-201: one row per day for
`range(min(len(forecasts), 3))`. -/
def forecast_table (forecasts : List DailyForecast) : List (List String) :=
  (forecasts.take 3).map daily_rain_probabilities

/-! ## Location directory parse (main.py lines 28-41) -/

/-- A `<city>` element: `get('id')` / `get('title')` may be absent. -/
structure CityElem where
  id : Option String
  title : Option String
deriving DecidableEq

/-- A `<pref>` element with its direct `<city>` children in document
order. -/
structure PrefElem where
  title : Option String
  cities : List CityElem
deriving DecidableEq

/-- A parsed city dict `{'id': ..., 'name': ...}` (main.py line 38). -/
structure City where
  id : String
  name : String
deriving DecidableEq

/-- A parsed entry `{'name': ..., 'cities': ...}` (main.py line 41). -/
structure PrefEntry where
  name : String
  cities : List City
deriving DecidableEq

/-- The inner city loop of main.py lines 34-38: keep the city only if
`city_id and city_name` is truthy (both present and non-empty). -/
def parse_city (c : CityElem) : Option City :=
  match c.id, c.title with
  | some i, some t => if i == "" || t == "" then none else some ⟨i, t⟩
  | _, _ => none

/-- The `cities_list` accumulated over a prefecture's city children. -/
def parse_cities : List CityElem → List City
  | [] => []
  | c :: rest =>
    match parse_city c with
    | some city => city :: parse_cities rest
    | none => parse_cities rest

/-- The prefecture loop of main.py lines 28-41: skip a prefecture whose
`title` is falsy (`if not pref_name: continue`), keep it only if its
surviving city list is non-empty (`if cities_list:`). -/
def get_location_data_from_xml : List PrefElem → List PrefEntry
  | [] => []
  | p :: rest =>
    if truthy_str p.title then
      let cities := parse_cities p.cities
      if cities.isEmpty then get_location_data_from_xml rest
      else ⟨p.title.getD "", cities⟩ :: get_location_data_from_xml rest
    else get_location_data_from_xml rest

/-! ## Default city selection (main.py lines 110-127) -/

/-- Index of the first occurrence of `w` in `l`; `none` models Python
`list.index` raising `ValueError`. -/
def index_of_first : List String → String → Option Nat
  | [], _ => none
  | x :: rest, w =>
    if x == w then some 0 else (index_of_first rest w).map (· + 1)

/-- Embeds `try: city_list.index(wanted) except ValueError: 0`
(main.py lines 120-124). -/
def city_index_or_zero (city_list : List String) (wanted : String) : Nat :=
  match index_of_first city_list wanted with
  | some i => i
  | none => 0

/-- The default-city-index computation of main.py lines 110-127:
initialised to 0; if the selected name is truthy, scan `location_data`
for the first matching prefecture (the loop breaks at the first match);
only when that name equals `DEFAULT_PREF` is `DEFAULT_CITY` looked up. -/
def default_city_index (location_data : List PrefEntry)
    (selected_prefecture_name : String) : Nat :=
  if selected_prefecture_name == "" then 0
  else
    match location_data.find? (fun p => p.name == selected_prefecture_name) with
    | none => 0
    | some p =>
      if selected_prefecture_name == DEFAULT_PREF then
        city_index_or_zero (p.cities.map City.name) DEFAULT_CITY
      else 0

/-! ## Forecast fetch (main.py lines 63-82) -/

/-- A decoded JSON value, as far as main.py inspects one. -/
inductive Json where
  | null
  | bool (b : Bool)
  | num (n : Int)
  | str (s : String)
  | arr (items : List Json)
  | obj (fields : List (String × Json))

/-- Outcome of the single `requests.get(url, timeout=10)` call:
a response with a status code and a raw body, or a transport failure. -/
inductive HttpResult where
  | timeout
  | connectionError
  | response (status : Nat) (body : String)

/-- Modelled from the spec: `requests.Response.raise_for_status` is an
external library call (not in src/); per the spec's classification it
raises `HTTPError` exactly on a non-2xx status. -/
def raise_for_status_fails (status : Nat) : Bool :=
  decide (status < 200) || decide (300 ≤ status)

/-- `get_weather_forecast` of main.py lines 63-82: the try/except
returns the decoded body on success and `None` on every failure class
(`Timeout`, `RequestException` covering connection errors and
`raise_for_status`, and the catch-all `Exception` covering
`JSONDecodeError`); `decode` abstracts `response.json()`, returning
`none` when the body is not valid JSON. -/
def get_weather_forecast (decode : String → Option Json) :
    HttpResult → Option Json
  | .timeout => none
  | .connectionError => none
  | .response status body =>
    if raise_for_status_fails status then none
    else
      match decode body with
      | some j => some j
      | none => none

/-! ## The falsy-response guard (main.py lines 150-155) -/

/-- Python truthiness of a JSON value: `None`, `False`, `0`, `""`,
`[]` and the empty object are falsy. -/
def truthy : Json → Bool
  | .null => false
  | .bool b => b
  | .num n => !(n == 0)
  | .str s => !(s == "")
  | .arr items => !items.isEmpty
  | .obj fields => !fields.isEmpty

/-- Whether `main` reaches the forecast-rendering section: the fetch
result is `None` on failure, and `if not weather_json: return`
(main.py line 152) aborts on any falsy decoded value. -/
def proceeds_to_forecast (weather_json : Option Json) : Bool :=
  match weather_json with
  | none => false
  | some j => truthy j

/-! ## Helper lemmas -/

/-- Closed form of the slot-matching loop over every integer hour. -/
theorem matched_slot_closed (h : Int) :
    matched_slot h =
      if h < 0 then none
      else if h < 6 then some "T00_06"
      else if h < 12 then some "T06_12"
      else if h < 18 then some "T12_18"
      else some "T18_24" := by
  simp only [matched_slot, time_slots, find_slot]
  simp only [current_hour_in_slot]
  simp only [Bool.or_eq_true, Bool.and_eq_true, decide_eq_true_eq, beq_iff_eq,
    String.reduceEq, false_and, or_false, true_and, ge_iff_le]
  split_ifs <;> try rfl
  all_goals omega

/-- The spec's slot key for an in-range hour (spec wording: the unique
slot whose half-open range contains the hour). -/
def specSlotKey (h : Int) : String :=
  if h < 6 then "T00_06"
  else if h < 12 then "T06_12"
  else if h < 18 then "T12_18"
  else "T18_24"

/-- Spec-side definition of `CurrentSlotValue` for in-range hours,
following the spec's words: look up the containing slot's key, default
to `"--"` when absent, and return `"--"` outright when the mapping is
absent or empty. -/
def specCurrentSlotValue (chance : Option (List (String × String)))
    (h : Int) : String :=
  match chance with
  | none => "--"
  | some d => if d.isEmpty then "--" else dictGet d (specSlotKey h) "--"

theorem index_of_first_spec (l : List String) (w : String) (i : Nat)
    (hfind : index_of_first l w = some i) :
    l.get? i = some w ∧ ∀ j < i, l.get? j ≠ some w := by
  induction l generalizing i with
  | nil => simp [index_of_first] at hfind
  | cons x rest ih =>
    simp only [index_of_first] at hfind
    by_cases hx : x == w
    · rw [if_pos hx] at hfind
      injection hfind with h0
      subst h0
      exact ⟨by simpa using beq_iff_eq.mp hx, by omega⟩
    · rw [if_neg hx] at hfind
      cases hrest : index_of_first rest w with
      | none => rw [hrest] at hfind; simp at hfind
      | some iR =>
        rw [hrest] at hfind
        simp only [Option.map_some'] at hfind
        injection hfind with h1
        subst h1
        obtain ⟨hget, hbefore⟩ := ih iR hrest
        refine ⟨by simpa using hget, ?_⟩
        intro j hj
        cases j with
        | zero =>
          simp only [List.get?_cons_zero, ne_eq, Option.some.injEq]
          intro hxw
          exact hx (beq_iff_eq.mpr hxw)
        | succ jR =>
          simpa using hbefore jR (by omega)

/-! ## Claim theorems -/

/-- C3: for every integer hour in [0,24), exactly one of the four loop
conditions of main.py line 169 holds, and the four plain half-open
ranges [0,6), [6,12), [12,18), [18,24) cover [0,24) with no gaps and no
overlaps. -/
theorem slot_conditions_exactly_one (h : Int) (h0 : 0 ≤ h) (h24 : h < 24) :
    (time_slots.countP fun t => current_hour_in_slot t.1 t.2.1 t.2.2 h) = 1 ∧
    (time_slots.countP fun t => decide (t.2.1 ≤ h) && decide (h < t.2.2)) = 1 := by
  interval_cases h <;> decide

theorem slot_conditions_exactly_one_witness :
    (time_slots.countP fun t => current_hour_in_slot t.1 t.2.1 t.2.2 13) = 1 ∧
    (time_slots.countP fun t => decide (t.2.1 ≤ (13 : Int)) && decide ((13 : Int) < t.2.2)) = 1 :=
  slot_conditions_exactly_one 13 (by decide) (by decide)

/-- C9: the post-loop fallback of main.py lines 175-176 is unreachable:
the loop matches a slot for every hour ≥ 0 (hours ≥ 24 are absorbed by
the T18_24 condition), the guard `now_hour >= 0` fails for every hour
< 0, and for negative hours the result stays the initial `'--'` even
when the `T18_24` key is present. -/
theorem fallback_branch_unreachable :
    (∀ h : Int, matched_slot h = none ↔ h < 0) ∧
    (∀ h : Int, 24 ≤ h → matched_slot h = some "T18_24") ∧
    (∀ (h : Int) (d : List (String × String)), h < 0 →
      weather_now_value (some d) h = "--") := by
  refine ⟨?_, ?_, ?_⟩
  · intro h
    rw [matched_slot_closed]
    constructor
    · intro he
      by_contra hc
      rw [if_neg (by omega)] at he
      split_ifs at he <;> simp at he
    · intro hh
      rw [if_pos hh]
  · intro h hh
    rw [matched_slot_closed]
    split_ifs <;> first | rfl | omega
  · intro h d hh
    have hm : matched_slot h = none := by
      rw [matched_slot_closed]
      split_ifs <;> first | rfl | omega
    simp only [weather_now_value, hm]
    split_ifs <;> first | rfl | omega

theorem fallback_branch_unreachable_witness :
    weather_now_value (some [("T18_24", "50%")]) (-1) = "--" :=
  fallback_branch_unreachable.2.2 (-1) [("T18_24", "50%")] (by decide)

/-- C1 counterexample: at hour -1 (outside [0,24)) with a present,
non-empty `chanceOfRain` that stores `"10%"` under `T18_24`, the code
returns `"--"`, not the value stored under `T18_24` as the claim
states. -/
theorem out_of_range_hour_counterexample :
    weather_now_value (some [("T18_24", "10%")]) (-1) = "--" ∧
    dictGet [("T18_24", "10%")] "T18_24" "--" = "10%" ∧
    ("--" : String) ≠ "10%" := by
  refine ⟨rfl, rfl, by decide⟩

/-- C1 amended: for every hour ≥ 24 and every present, non-empty
`chanceOfRain`, the code returns the value stored under `T18_24` (or
`"--"` if that key is absent); for every hour < 0 it returns `"--"`
unconditionally; in neither case does it fail. -/
theorem out_of_range_hour_amended (h : Int) (d : List (String × String))
    (hd : d ≠ []) :
    (24 ≤ h → weather_now_value (some d) h = dictGet d "T18_24" "--") ∧
    (h < 0 → weather_now_value (some d) h = "--") := by
  have hni : d.isEmpty = false := by
    cases d with
    | nil => exact absurd rfl hd
    | cons a t => rfl
  constructor
  · intro hh
    have hm : matched_slot h = some "T18_24" := by
      rw [matched_slot_closed]
      split_ifs <;> first | rfl | omega
    simp [weather_now_value, hm, hni]
  · intro hh
    have hm : matched_slot h = none := by
      rw [matched_slot_closed]
      split_ifs <;> first | rfl | omega
    simp only [weather_now_value, hm, hni, Bool.false_eq_true, if_false]
    rw [if_neg (by omega)]

theorem out_of_range_hour_amended_witness :
    weather_now_value (some [("T18_24", "10%")]) 30 =
      dictGet [("T18_24", "10%")] "T18_24" "--" :=
  (out_of_range_hour_amended 30 [("T18_24", "10%")] (by decide)).1 (by decide)

/-- C4: for every hour in [0,24) and every `chanceOfRain`, the code
returns exactly what the spec's `CurrentSlotValue` prescribes: the
value stored under the unique containing slot's key, `"--"` when that
key is absent or the mapping is absent or empty; in particular for
`{"T06_12": "30%"}` at hour 20 it returns `"--"`. -/
theorem current_slot_value_in_range (h : Int) (h0 : 0 ≤ h) (h24 : h < 24)
    (chance : Option (List (String × String))) :
    weather_now_value chance h = specCurrentSlotValue chance h ∧
    weather_now_value (some [("T06_12", "30%")]) 20 = "--" := by
  constructor
  · cases chance with
    | none => rfl
    | some d =>
      have hm : matched_slot h = some (specSlotKey h) := by
        rw [matched_slot_closed]
        simp only [specSlotKey]
        split_ifs <;> first | rfl | omega
      simp [weather_now_value, specCurrentSlotValue, hm]
  · rfl

theorem current_slot_value_in_range_witness :
    weather_now_value (some [("T06_12", "30%")]) 20 =
      specCurrentSlotValue (some [("T06_12", "30%")]) 20 :=
  (current_slot_value_in_range 20 (by decide) (by decide)
    (some [("T06_12", "30%")])).1

/-- C2: the expression `weather_json.get('forecasts', [{}])[0]` of
main.py line 161 raises `IndexError` (modelled by `none`) when the
`forecasts` key is present but its array is empty, so the
current-reading derivation aborts with an uncaught exception there;
the `[{}]` default only protects the key-absent case. -/
theorem empty_forecasts_array_crashes :
    forecast_today ⟨some []⟩ = none ∧
    current_weather_now ⟨some []⟩ 10 = none ∧
    forecast_today ⟨none⟩ = some ⟨none⟩ ∧
    current_weather_now ⟨none⟩ 10 = some "--" :=
  ⟨rfl, rfl, rfl, rfl⟩

/-- C7: the table has exactly `min (number of days) 3` rows (a 5-day
response yields 3 rows, days 4-5 discarded), every row has exactly 4
entries, row `i` is the fixed-order four-slot projection of day `i`,
and a day lacking `chanceOfRain` yields the full row of four `"--"`
placeholders, never a shorter row. -/
theorem forecast_table_shape :
    (∀ fs : List DailyForecast, (forecast_table fs).length = min fs.length 3) ∧
    (∀ fs : List DailyForecast, ∀ row ∈ forecast_table fs, row.length = 4) ∧
    (∀ (fs : List DailyForecast) (i : Nat) (fc : DailyForecast),
      i < 3 → fs.get? i = some fc →
      (forecast_table fs).get? i = some (daily_rain_probabilities fc)) ∧
    (∀ fc : DailyForecast, fc.chanceOfRain = none →
      daily_rain_probabilities fc = List.replicate 4 "--") ∧
    (∀ fc : DailyForecast, (daily_rain_probabilities fc).length = 4) := by
  have hlen : ∀ fc : DailyForecast, (daily_rain_probabilities fc).length = 4 := by
    intro fc
    cases hfc : fc.chanceOfRain with
    | none => simp [daily_rain_probabilities, hfc]
    | some d =>
      simp only [daily_rain_probabilities, hfc]
      split_ifs <;> simp
  refine ⟨?_, ?_, ?_, ?_, hlen⟩
  · intro fs
    simp only [forecast_table, List.length_map, List.length_take]
    omega
  · intro fs row hrow
    simp only [forecast_table, List.mem_map] at hrow
    obtain ⟨fc, _, rfl⟩ := hrow
    exact hlen fc
  · intro fs i fc hi hget
    simp only [forecast_table]
    rw [List.get?_map, List.get?_take hi, hget]
    rfl
  · intro fc hfc
    simp [daily_rain_probabilities, hfc]

theorem forecast_table_shape_witness :
    (forecast_table (List.replicate 5 (⟨none⟩ : DailyForecast))).get? 2 =
      some (daily_rain_probabilities ⟨none⟩) :=
  forecast_table_shape.2.2.1 (List.replicate 5 ⟨none⟩) 2 ⟨none⟩
    (by decide) (by decide)

/-- C8: `get_weather_forecast` returns the decoded body on success and
`None` on every failure class (timeout, network failure or non-2xx
status, undecodable body); every failure is caught inside the function,
none propagates to the caller, and the single request is never
retried. -/
theorem get_weather_forecast_error_handling :
    ∀ (decode : String → Option Json) (r : HttpResult),
      (r = HttpResult.timeout → get_weather_forecast decode r = none) ∧
      (r = HttpResult.connectionError → get_weather_forecast decode r = none) ∧
      (∀ s b, r = HttpResult.response s b → raise_for_status_fails s = true →
        get_weather_forecast decode r = none) ∧
      (∀ s b, r = HttpResult.response s b → raise_for_status_fails s = false →
        decode b = none → get_weather_forecast decode r = none) ∧
      (∀ s b j, r = HttpResult.response s b → raise_for_status_fails s = false →
        decode b = some j → get_weather_forecast decode r = some j) := by
  intro decode r
  refine ⟨?_, ?_, ?_, ?_, ?_⟩
  · rintro rfl; rfl
  · rintro rfl; rfl
  · rintro s b rfl hs
    simp [get_weather_forecast, hs]
  · rintro s b rfl hs hd
    simp [get_weather_forecast, hs, hd]
  · rintro s b j rfl hs hd
    simp [get_weather_forecast, hs, hd]

theorem get_weather_forecast_error_handling_witness :
    get_weather_forecast (fun _ => none) HttpResult.timeout = none :=
  (get_weather_forecast_error_handling (fun _ => none) HttpResult.timeout).1 rfl

/-- C10: a fetch that succeeds but decodes to a falsy value (the empty
object or the empty array) is treated by `main` exactly like a fetch
failure: the `if not weather_json` guard aborts before any forecast
rendering, indistinguishably from the `None` of a transport error. -/
theorem falsy_response_aborts :
    proceeds_to_forecast none = false ∧
    proceeds_to_forecast (some (Json.obj [])) = false ∧
    proceeds_to_forecast (some (Json.arr [])) = false ∧
    proceeds_to_forecast (some (Json.obj [])) = proceeds_to_forecast none ∧
    (∀ j : Json, truthy j = false →
      proceeds_to_forecast (some j) = proceeds_to_forecast none) := by
  refine ⟨rfl, rfl, rfl, rfl, ?_⟩
  intro j hj
  simp [proceeds_to_forecast, hj]

theorem falsy_response_aborts_witness :
    proceeds_to_forecast (some Json.null) = proceeds_to_forecast none :=
  falsy_response_aborts.2.2.2.2 Json.null rfl

/-- A city element missing its id or title attribute parses to
nothing. -/
theorem parse_city_none (c : CityElem) (hc : c.id = none ∨ c.title = none) :
    parse_city c = none := by
  obtain ⟨cid, ctitle⟩ := c
  cases cid <;> cases ctitle <;> simp_all [parse_city]

/-- C5: in the directory build of `get_location_data_from_xml`, a
prefecture without a title contributes nothing; a city missing its id
or title is dropped without affecting its siblings; a prefecture whose
surviving city list is empty is dropped entirely; every retained
prefecture has at least one city; and both prefecture order and city
order follow source-document order (the retained names form a sublist
of the source titles). -/
theorem location_directory_build_properties :
    (∀ (p : PrefElem) (rest : List PrefElem), p.title = none →
      get_location_data_from_xml (p :: rest) = get_location_data_from_xml rest) ∧
    (∀ (cs1 cs2 : List CityElem) (c : CityElem), c.id = none ∨ c.title = none →
      parse_cities (cs1 ++ c :: cs2) = parse_cities (cs1 ++ cs2)) ∧
    (∀ (p : PrefElem) (rest : List PrefElem), parse_cities p.cities = [] →
      get_location_data_from_xml (p :: rest) = get_location_data_from_xml rest) ∧
    (∀ prefs : List PrefElem, ∀ e ∈ get_location_data_from_xml prefs,
      e.cities ≠ []) ∧
    (∀ prefs : List PrefElem,
      ((get_location_data_from_xml prefs).map PrefEntry.name).Sublist
        (prefs.filterMap PrefElem.title)) ∧
    (∀ cs : List CityElem,
      ((parse_cities cs).map City.name).Sublist
        (cs.filterMap CityElem.title)) := by
  refine ⟨?_, ?_, ?_, ?_, ?_, ?_⟩
  · intro p rest hp
    simp [get_location_data_from_xml, hp, truthy_str]
  · intro cs1 cs2 c hc
    induction cs1 with
    | nil =>
      simp only [List.nil_append, parse_cities, parse_city_none c hc]
    | cons x xs ih =>
      simp only [List.cons_append, parse_cities]
      cases hx : parse_city x <;> simp [hx, ih]
  · intro p rest hp
    simp only [get_location_data_from_xml, hp, List.isEmpty_nil, if_true]
    split_ifs <;> rfl
  · intro prefs
    induction prefs with
    | nil => simp [get_location_data_from_xml]
    | cons p rest ih =>
      intro e he
      simp only [get_location_data_from_xml] at he
      split_ifs at he with h1 h2
      · exact ih e he
      · rcases List.mem_cons.mp he with rfl | hmem
        · intro hcontra
          simp only at hcontra
          exact h2 (by simp [hcontra])
        · exact ih e hmem
      · exact ih e he
  · intro prefs
    induction prefs with
    | nil => simp [get_location_data_from_xml]
    | cons p rest ih =>
      obtain ⟨title, cities⟩ := p
      cases title with
      | none =>
        simpa [get_location_data_from_xml, truthy_str] using ih
      | some s =>
        by_cases hs : s = ""
        · subst hs
          simpa [get_location_data_from_xml, truthy_str] using ih.cons ""
        · simp only [get_location_data_from_xml, truthy_str, List.filterMap_cons]
          simp only [Option.getD_some]
          rw [if_pos (by simp [hs])]
          split_ifs with hemp
          · exact ih.cons s
          · simpa using ih.cons₂ s
  · intro cs
    induction cs with
    | nil => simp [parse_cities]
    | cons c rest ih =>
      obtain ⟨cid, ctitle⟩ := c
      cases cid with
      | none =>
        cases ctitle with
        | none => simpa [parse_cities, parse_city] using ih
        | some t =>
          simpa [parse_cities, parse_city] using ih.cons t
      | some i =>
        cases ctitle with
        | none => simpa [parse_cities, parse_city] using ih
        | some t =>
          simp only [parse_cities, parse_city, List.filterMap_cons]
          split_ifs with hit
          · exact ih.cons t
          · simpa using ih.cons₂ t

theorem location_directory_build_properties_witness :
    get_location_data_from_xml [⟨none, [⟨some "1", some "X"⟩]⟩] =
      get_location_data_from_xml [] :=
  location_directory_build_properties.1 ⟨none, [⟨some "1", some "X"⟩]⟩ [] rfl

/-- C6: the default city index is non-zero only when the selected
prefecture name equals `DEFAULT_PREF` and `DEFAULT_CITY` occurs in the
(first) matching prefecture's city list, in which case it is the index
of the first occurrence; for every other selected prefecture it is 0,
whatever the city list holds. -/
theorem default_city_index_policy :
    (∀ (ld : List PrefEntry) (sel : String), sel ≠ DEFAULT_PREF →
      default_city_index ld sel = 0) ∧
    (∀ (ld : List PrefEntry) (sel : String), default_city_index ld sel ≠ 0 →
      sel = DEFAULT_PREF ∧
      ∃ p, ld.find? (fun q => q.name == sel) = some p ∧
        (p.cities.map City.name).get? (default_city_index ld sel) =
          some DEFAULT_CITY ∧
        ∀ j < default_city_index ld sel,
          (p.cities.map City.name).get? j ≠ some DEFAULT_CITY) := by
  constructor
  · intro ld sel hne
    by_cases h0 : (sel == "") = true
    · simp [default_city_index, h0]
    · have hdp : (sel == DEFAULT_PREF) = false := by
        rcases Bool.eq_false_or_eq_true (sel == DEFAULT_PREF) with hb | hb
        · exact absurd (beq_iff_eq.mp hb) hne
        · exact hb
      cases hf : ld.find? (fun q => q.name == sel) with
      | none => simp [default_city_index, h0, hf]
      | some p => simp [default_city_index, h0, hf, hdp]
  · intro ld sel hnz
    by_cases h0 : (sel == "") = true
    · exact absurd (by simp [default_city_index, h0]) hnz
    · cases hf : ld.find? (fun q => q.name == sel) with
      | none => exact absurd (by simp [default_city_index, h0, hf]) hnz
      | some p =>
        by_cases hdp : (sel == DEFAULT_PREF) = true
        · have hval : default_city_index ld sel =
              city_index_or_zero (p.cities.map City.name) DEFAULT_CITY := by
            simp [default_city_index, h0, hf, hdp]
          cases hio : index_of_first (p.cities.map City.name) DEFAULT_CITY with
          | none =>
            refine absurd ?_ hnz
            rw [hval]
            simp [city_index_or_zero, hio]
          | some i =>
            obtain ⟨hg, hb⟩ := index_of_first_spec _ _ _ hio
            have hvi : default_city_index ld sel = i := by
              rw [hval]
              simp [city_index_or_zero, hio]
            refine ⟨beq_iff_eq.mp hdp, p, rfl, ?_, ?_⟩
            · rw [hvi]; exact hg
            · rw [hvi]; exact hb
        · exact absurd (by simp [default_city_index, h0, hf, hdp]) hnz

theorem default_city_index_policy_witness :
    default_city_index
      [⟨"東京都", [⟨"c1", "八丈島"⟩, ⟨"c2", "東京"⟩]⟩,
       ⟨"北海道", [⟨"a", "A"⟩, ⟨"b", "B"⟩]⟩] "北海道" = 0 :=
  default_city_index_policy.1
    [⟨"東京都", [⟨"c1", "八丈島"⟩, ⟨"c2", "東京"⟩]⟩,
     ⟨"北海道", [⟨"a", "A"⟩, ⟨"b", "B"⟩]⟩] "北海道" (by decide)

end WeatherApp
